import Mathlib

/-!
Shallow embedding of the `react/Reviews.tsx` component of the
reviews-and-ratings storefront widget, together with proofs about its
reducer, render rules and time-ago formatter.

Conventions of the embedding:
* JavaScript numbers that only ever hold integers (offsets, limits,
  counts, ratings, epoch milliseconds) are modelled as `Int`.
* A JavaScript value that may be `null`/`undefined` is modelled as an
  `Option`.
* The reducer's `switch` statement has no `default` case, so a dispatch
  whose `type` matches none of the seven cases falls through the switch
  and the function returns `undefined`; the embedding therefore returns
  `Option State`, with `none` standing for that `undefined` result.
* `Date` field accessors (`getUTCMinutes`, `getUTCHours`, `getUTCDate`,
  `getUTCMonth`, `getUTCFullYear`) follow the ECMAScript definitions:
  floor division / modulo of the epoch-millisecond value, with the day
  number converted to a proleptic Gregorian calendar date.
-/

namespace Reviews

/-- One review record, as described by the `Review` interface. -/
structure Review where
  id : Int
  cacheId : Int
  productId : String
  rating : Int
  title : String
  text : String
  reviewerName : String
  shopperId : String
  reviewDateTime : String
  verifiedPurchaser : Bool
deriving Repr, DecidableEq

/-- The component state, as described by the `State` interface.
`reviews` is `Review[] | null` in the source, hence an `Option` here. -/
structure State where
  sort : String
  offset : Int
  limit : Int
  reviews : Option (List Review)
  total : Int
  average : Int
  hasTotal : Bool
  hasAverage : Bool
  showForm : Bool
deriving Repr, DecidableEq

/-- The `args` payload object carried by a dispatched action.  Each case of
the source's `ReducerActions` union reads at most one of these fields; the
defaults only matter for constructing sample actions. -/
structure ActionArgs where
  sort : String := ""
  reviews : Option (List Review) := none
  total : Int := 0
  average : Int := 0
deriving Repr, DecidableEq

/-- A runtime action object: a `type` discriminator string plus `args`.
The source's `ReducerActions` union restricts `type` to seven strings at
the TypeScript level, but at runtime any string can be dispatched, which
is what the claims about unrecognized actions quantify over. -/
structure ReducerActions where
  type : String
  args : ActionArgs := {}
deriving Repr, DecidableEq

/-- `initialState` from the source. -/
def initialState : State :=
  { sort := "ReviewDateTime:desc"
    offset := 0
    limit := 10
    reviews := none
    total := 0
    average := 0
    hasTotal := false
    hasAverage := false
    showForm := false }

/-- The reducer.  Each branch mirrors one `case` of the source's `switch`;
the final `none` is the implicit `return undefined` reached when no case
matches (the `switch` has no `default`).  `action.args.reviews || []` in
the `SET_REVIEWS` case replaces a `null`/`undefined` payload with the
empty array (a non-null array, even the empty one, is truthy and kept). -/
def reducer (state : State) (action : ReducerActions) : Option State :=
  if action.type = "SET_NEXT_PAGE" then
    some { state with offset := state.offset + state.limit }
  else if action.type = "SET_PREV_PAGE" then
    some { state with
      offset :=
        if state.offset - state.limit < 0 then 0
        else state.offset - state.limit }
  else if action.type = "TOGGLE_REVIEW_FORM" then
    some { state with showForm := !state.showForm }
  else if action.type = "SET_SELECTED_SORT" then
    some { state with sort := action.args.sort }
  else if action.type = "SET_REVIEWS" then
    some { state with reviews := some (action.args.reviews.getD []) }
  else if action.type = "SET_TOTAL" then
    some { state with total := action.args.total, hasTotal := true }
  else if action.type = "SET_AVERAGE" then
    some { state with average := action.args.average, hasAverage := true }
  else
    none

/-! ### ECMAScript `Date` UTC field accessors

`getTimeAgo` builds `new Date(now - before)` and reads UTC calendar
fields of that date.  The accessors below are the ECMAScript
specification's `MinFromTime`, `HourFromTime`, `DateFromTime`,
`MonthFromTime` and `YearFromTime`, on epoch milliseconds.  The day
number is turned into a proleptic Gregorian (year, month, day) triple by
the standard civil-from-days computation. -/

/-- ECMAScript `Day(t)`: days since the 1970 epoch, floor division. -/
def dayNumber (t : Int) : Int := Int.fdiv t 86400000

/-- Convert a day number (days since 1970-01-01) to a proleptic Gregorian
(year, month 1..12, day-of-month 1..31) triple. -/
def civilFromDays (z : Int) : Int × Int × Int :=
  let z' := z + 719468
  let era := Int.fdiv z' 146097
  let doe := z' - era * 146097
  let yoe :=
    Int.fdiv (doe - Int.fdiv doe 1460 + Int.fdiv doe 36524 - Int.fdiv doe 146096) 365
  let y := yoe + era * 400
  let doy := doe - (365 * yoe + Int.fdiv yoe 4 - Int.fdiv yoe 100)
  let mp := Int.fdiv (5 * doy + 2) 153
  let d := doy - Int.fdiv (153 * mp + 2) 5 + 1
  let m := mp + (if mp < 10 then 3 else -9)
  (if m ≤ 2 then y + 1 else y, m, d)

/-- `Date.prototype.getUTCMinutes` on epoch milliseconds. -/
def getUTCMinutes (t : Int) : Int := Int.fmod (Int.fdiv t 60000) 60

/-- `Date.prototype.getUTCHours` on epoch milliseconds. -/
def getUTCHours (t : Int) : Int := Int.fmod (Int.fdiv t 3600000) 24

/-- `Date.prototype.getUTCDate` (day of month, 1-based). -/
def getUTCDate (t : Int) : Int := (civilFromDays (dayNumber t)).2.2

/-- `Date.prototype.getUTCMonth` (month index, 0-based). -/
def getUTCMonth (t : Int) : Int := (civilFromDays (dayNumber t)).2.1 - 1

/-- `Date.prototype.getUTCFullYear`. -/
def getUTCFullYear (t : Int) : Int := (civilFromDays (dayNumber t)).1

/-- `getTimeAgo` from the source.  The string argument is parsed by the
JavaScript runtime into the instant `beforeMs`, and `new Date()` is the
instant `nowMs`; both are epoch milliseconds.  The function forms the
difference, reads UTC calendar fields of the difference *as a date*
(i.e. of the instant `diff` milliseconds after the 1970 epoch), and
returns the first non-zero unit from largest to smallest. -/
def getTimeAgo (nowMs beforeMs : Int) : String :=
  let diff := nowMs - beforeMs
  let minutes := getUTCMinutes diff
  let hours := getUTCHours diff
  let days := getUTCDate diff - 1
  let months := getUTCMonth diff
  let years := getUTCFullYear diff - 1970
  if years > 0 then
    toString years ++ " " ++ (if years > 1 then "years" else "year") ++ " ago"
  else if months > 0 then
    toString months ++ " " ++ (if months > 1 then "months" else "month") ++ " ago"
  else if days > 0 then
    toString days ++ " " ++ (if days > 1 then "days" else "day") ++ " ago"
  else if hours > 0 then
    toString hours ++ " " ++ (if hours > 1 then "hours" else "hour") ++ " ago"
  else if minutes > 0 then
    toString minutes ++ " " ++ (if minutes > 1 then "minutes" else "minute") ++ " ago"
  else
    "just now"

/-- The label for a single unit value: the number, the singular noun when
the value is exactly 1 and the plural noun when it is greater, then
"ago".  This is the wording rule shared by every branch of `getTimeAgo`. -/
def unitLabel (n : Int) (singular plural : String) : String :=
  toString n ++ " " ++ (if n > 1 then plural else singular) ++ " ago"

/-- The "largest non-zero unit" selection ladder: given the five unit
values from years down to minutes, return the first positive one with
singular/plural wording, or "just now" when none is positive. -/
def largestUnitLabel (years months days hours minutes : Int) : String :=
  if years > 0 then unitLabel years "year" "years"
  else if months > 0 then unitLabel months "month" "months"
  else if days > 0 then unitLabel days "day" "days"
  else if hours > 0 then unitLabel hours "hour" "hours"
  else if minutes > 0 then unitLabel minutes "minute" "minutes"
  else "just now"

/-- Follows the specification's words (not the source): compute each unit
value by UTC field subtraction between `now` and the timestamp — year
field minus year field, month field minus month field, and so on — and
return the largest non-zero unit with singular/plural wording, or the
"just now" sentinel when all five are zero.  Used to compare the spec's
description of `getTimeAgo` against the source's actual computation. -/
def getTimeAgoSpecFieldSub (nowMs beforeMs : Int) : String :=
  let years := getUTCFullYear nowMs - getUTCFullYear beforeMs
  let months := getUTCMonth nowMs - getUTCMonth beforeMs
  let days := getUTCDate nowMs - getUTCDate beforeMs
  let hours := getUTCHours nowMs - getUTCHours beforeMs
  let minutes := getUTCMinutes nowMs - getUTCMinutes beforeMs
  largestUnitLabel years months days hours minutes

/-! ### Render rules -/

/-- What the summary region (`div.review__rating`) renders. -/
inductive SummaryView where
  | loadingSummary
  | empty
  | stats (average : Int) (total : Int)
deriving Repr, DecidableEq

/-- The summary region's render rule, from the component's JSX:
`!state.hasTotal || !state.hasAverage` shows the loading text, else
`state.total == 0` renders `null`, else the stars / average / count. -/
def summaryView (s : State) : SummaryView :=
  if !s.hasTotal || !s.hasAverage then .loadingSummary
  else if s.total == 0 then .empty
  else .stats s.average s.total

/-- The props handed to the external `Pagination` widget when the list is
rendered.  The source passes `currentItemFrom={state.offset + 1}`,
`currentItemTo={state.offset + state.limit}` and
`totalItems={state.total}`; nothing about the fetched page's length is
passed to the widget. -/
structure PagerProps where
  currentItemFrom : Int
  currentItemTo : Int
  totalItems : Int
deriving Repr, DecidableEq

/-- What the list region (`div.review__comments`) renders. -/
inductive ListView where
  | loadingReviews
  | noReviews
  | reviewList (reviews : List Review) (sort : String) (pager : PagerProps)
deriving Repr, DecidableEq

/-- The list region's render rule, from the component's JSX:
`state.reviews === null` shows the loading text; a truthy
`state.reviews.length` renders the sort dropdown, the review entries and
the pager; otherwise the "No reviews." message. -/
def listView (s : State) : ListView :=
  match s.reviews with
  | none => .loadingReviews
  | some rs =>
      if rs.length ≠ 0 then
        .reviewList rs s.sort
          ⟨s.offset + 1, s.offset + s.limit, s.total⟩
      else .noReviews

/-- The pager props of a rendered list view, when a pager is present. -/
def pagerOf : ListView → Option PagerProps
  | .reviewList _ _ p => some p
  | _ => none

/-! ### Reachability -/

/-- States reachable from `initialState` by dispatching any sequence of
actions that the reducer recognizes. -/
inductive Reachable : State → Prop where
  | init : Reachable initialState
  | step (s s' : State) (a : ReducerActions) :
      Reachable s → reducer s a = some s' → Reachable s'

/-- A throwaway review value used to build concrete witness states. -/
def sampleReview : Review :=
  { id := 1
    cacheId := 1
    productId := "P1"
    rating := 5
    title := "Great"
    text := "Loved it"
    reviewerName := "A"
    shopperId := "S"
    reviewDateTime := "2020-01-01 00:30:00"
    verifiedPurchaser := true }

/-! ### Helper lemmas -/

/-- The clamped decrement in the `SET_PREV_PAGE` branch is exactly
`max 0 (a - b)`. -/
lemma clamp_eq_max (a b : Int) : (if a - b < 0 then 0 else a - b) = max 0 (a - b) := by
  split <;> omega

/-- Every recognized reducer action leaves `limit` unchanged. -/
lemma reducer_limit_eq (s : State) (a : ReducerActions) (s' : State)
    (h : reducer s a = some s') : s'.limit = s.limit := by
  unfold reducer at h
  split_ifs at h <;> injection h with h <;> subst h <;> rfl

/-- Every recognized reducer action preserves non-negativity of `offset`
when the limit is positive. -/
lemma reducer_offset_nonneg (s : State) (a : ReducerActions) (s' : State)
    (h : reducer s a = some s') (h0 : 0 ≤ s.offset) (hl : 0 < s.limit) :
    0 ≤ s'.offset := by
  unfold reducer at h
  split_ifs at h <;> injection h with h <;> subst h <;> simp only [] <;> omega

/-! ### Claims -/

/-- C1 counterexample: with now = 2020-01-01T02:00:00Z (epoch ms
1577844000000) and input timestamp 2020-01-01T00:30:00Z (epoch ms
1577838600000), exactly 90 minutes apart, `getTimeAgo` does *not* return
"1 hours ago": the hour unit is 1, and the code words a unit value of 1
in the singular (`hours > 1` is false). -/
theorem getTimeAgo_90min_not_plural :
    getTimeAgo 1577844000000 1577838600000 ≠ "1 hours ago" := by decide

/-- C1 amended: for now = 2020-01-01T02:00:00Z and input timestamp
2020-01-01T00:30:00Z (exactly 90 minutes earlier), `getTimeAgo` returns
the singular "1 hour ago". -/
theorem getTimeAgo_90min_singular :
    getTimeAgo 1577844000000 1577838600000 = "1 hour ago" := by decide

/-- C2 counterexample: dispatching an action whose type matches none of
the seven cases is not a no-op: the `switch` falls through and the
reducer returns `undefined` (`none`), not the unchanged state. -/
theorem reducer_unrecognized_not_noop :
    reducer initialState { type := "SOME_OTHER_ACTION" } = none ∧
    reducer initialState { type := "SOME_OTHER_ACTION" } ≠ some initialState := by
  exact ⟨rfl, by decide⟩

/-- C2 amended: for every state and every action whose type is none of the
seven recognized action types, the reducer returns `undefined` (modelled
as `none`) — it neither returns the unchanged state nor throws (it is a
total function). -/
theorem reducer_unrecognized_returns_undefined (s : State) (a : ReducerActions)
    (h1 : a.type ≠ "SET_NEXT_PAGE") (h2 : a.type ≠ "SET_PREV_PAGE")
    (h3 : a.type ≠ "TOGGLE_REVIEW_FORM") (h4 : a.type ≠ "SET_SELECTED_SORT")
    (h5 : a.type ≠ "SET_REVIEWS") (h6 : a.type ≠ "SET_TOTAL")
    (h7 : a.type ≠ "SET_AVERAGE") :
    reducer s a = none := by
  simp [reducer, h1, h2, h3, h4, h5, h6, h7]

/-- C2 witness: the amended theorem applied to a concrete unrecognized
action. -/
theorem reducer_unrecognized_returns_undefined_witness :
    reducer initialState { type := "SOME_UNKNOWN_ACTION" } = none :=
  reducer_unrecognized_returns_undefined initialState _ (by decide) (by decide)
    (by decide) (by decide) (by decide) (by decide) (by decide)

/-- C3: for every state with non-negative offset, `SET_PREV_PAGE` yields
the state whose offset is `max 0 (offset - limit)` (everything else
unchanged), and that offset is non-negative. -/
theorem prevPage_clamps_offset (s : State) (args : ActionArgs)
    (h : 0 ≤ s.offset) :
    reducer s ⟨"SET_PREV_PAGE", args⟩ =
      some { s with offset := max 0 (s.offset - s.limit) } ∧
    0 ≤ ({ s with offset := max 0 (s.offset - s.limit) } : State).offset := by
  have h1 : reducer s ⟨"SET_PREV_PAGE", args⟩ =
      some { s with offset :=
        if s.offset - s.limit < 0 then 0 else s.offset - s.limit } := rfl
  refine ⟨by rw [h1, clamp_eq_max], ?_⟩
  simp only []
  omega

/-- C3 witness: the clamping theorem applied at the initial state. -/
theorem prevPage_clamps_offset_witness :
    reducer initialState ⟨"SET_PREV_PAGE", {}⟩ =
      some { initialState with
        offset := max 0 (initialState.offset - initialState.limit) } ∧
    0 ≤ ({ initialState with
        offset := max 0 (initialState.offset - initialState.limit) } : State).offset :=
  prevPage_clamps_offset initialState {} (by decide)

/-- C4: from any state whose offset is at least its page size,
`SET_PREV_PAGE` followed by `SET_NEXT_PAGE` returns the whole state (in
particular the offset) to its original value. -/
theorem prevPage_nextPage_roundtrip (s : State) (argsP argsN : ActionArgs)
    (h : s.limit ≤ s.offset) :
    (reducer s ⟨"SET_PREV_PAGE", argsP⟩).bind
      (fun s1 => reducer s1 ⟨"SET_NEXT_PAGE", argsN⟩) = some s := by
  have h1 : reducer s ⟨"SET_PREV_PAGE", argsP⟩ =
      some { s with offset :=
        if s.offset - s.limit < 0 then 0 else s.offset - s.limit } := rfl
  rw [h1, if_neg (by omega)]
  rw [Option.some_bind]
  have h2 : reducer { s with offset := s.offset - s.limit } ⟨"SET_NEXT_PAGE", argsN⟩ =
      some { s with offset := s.offset - s.limit + s.limit } := rfl
  rw [h2]
  have h3 : s.offset - s.limit + s.limit = s.offset := by omega
  rw [h3]

/-- C4 witness: the round-trip applied at a state with offset 20 and
limit 10. -/
theorem prevPage_nextPage_roundtrip_witness :
    (reducer { initialState with offset := 20 } ⟨"SET_PREV_PAGE", {}⟩).bind
      (fun s1 => reducer s1 ⟨"SET_NEXT_PAGE", {}⟩) =
      some { initialState with offset := 20 } :=
  prevPage_nextPage_roundtrip { initialState with offset := 20 } {} {} (by decide)

/-- C5: for every state and sort key, `SET_SELECTED_SORT` produces the
state with only the `sort` field replaced by the given key; in
particular the offset is unchanged. -/
theorem setSort_changes_only_sort (s : State) (k : String)
    (rv : Option (List Review)) (tot avg : Int) :
    reducer s ⟨"SET_SELECTED_SORT", ⟨k, rv, tot, avg⟩⟩ = some { s with sort := k } ∧
    ({ s with sort := k } : State).offset = s.offset :=
  ⟨rfl, rfl⟩

/-- C6: the summary region shows the loading label exactly when the total
or the average is not yet loaded; when both are loaded it renders
nothing if the total is zero and otherwise the stars, the numeric
average and the review count. -/
theorem summary_render_rule (s : State) :
    (summaryView s = .loadingSummary ↔
      (s.hasTotal = false ∨ s.hasAverage = false)) ∧
    (s.hasTotal = true → s.hasAverage = true → s.total = 0 →
      summaryView s = .empty) ∧
    (s.hasTotal = true → s.hasAverage = true → s.total ≠ 0 →
      summaryView s = .stats s.average s.total) := by
  obtain ⟨srt, off, lim, rv, tot, avg, hT, hA, sf⟩ := s
  cases hT <;> cases hA <;> by_cases h : tot = 0 <;>
    simp_all [summaryView]

/-- C6 witness: the render rule applied to a loaded state with total 7 and
average 4. -/
theorem summary_render_rule_witness :
    summaryView { initialState with
      hasTotal := true, hasAverage := true, total := 7, average := 4 } =
      .stats 4 7 :=
  (summary_render_rule _).2.2 rfl rfl (by decide)

/-- C7 counterexample: for now = 2020-03-01T00:00:00Z (epoch ms
1583020800000) and timestamp 2020-02-29T23:00:00Z (epoch ms
1583017200000), one hour apart, the source decomposes the elapsed
duration from the 1970 epoch and answers "1 hour ago", whereas UTC field
subtraction between now and the timestamp (month field 2 minus month
field 1) would answer "1 month ago". -/
theorem getTimeAgo_not_field_subtraction :
    getTimeAgo 1583020800000 1583017200000 = "1 hour ago" ∧
    getTimeAgoSpecFieldSub 1583020800000 1583017200000 = "1 month ago" :=
  ⟨by decide, by decide⟩

/-- C7 amended: for every pair of instants, `getTimeAgo` returns the
largest non-zero unit — singular at exactly 1, plural above 1, "just
now" when all are zero — where the unit values are the UTC calendar
fields of the elapsed duration now − timestamp read as a date offset
from the 1970 epoch (years = epoch year − 1970, months = epoch month
index, days = epoch day-of-month − 1, plus hours and minutes), not the
field-by-field subtraction of now and the timestamp. -/
theorem getTimeAgo_epoch_decomposition (nowMs beforeMs : Int) :
    getTimeAgo nowMs beforeMs =
      largestUnitLabel (getUTCFullYear (nowMs - beforeMs) - 1970)
        (getUTCMonth (nowMs - beforeMs)) (getUTCDate (nowMs - beforeMs) - 1)
        (getUTCHours (nowMs - beforeMs)) (getUTCMinutes (nowMs - beforeMs)) :=
  rfl

/-- C8 counterexample: two loaded states that differ only in whether a
full page was returned (10 reviews = the limit, versus 3 reviews) hand
the pager *identical* props ⟨from 1, to 10, totalItems 100⟩ — the page's
length is never passed to the pager, so next/previous enabling cannot be
based on whether a full page was returned. -/
theorem pager_ignores_page_fullness :
    listView { initialState with
        reviews := some (List.replicate 10 sampleReview), total := 100 } =
      .reviewList (List.replicate 10 sampleReview) "ReviewDateTime:desc"
        ⟨1, 10, 100⟩ ∧
    listView { initialState with
        reviews := some (List.replicate 3 sampleReview), total := 100 } =
      .reviewList (List.replicate 3 sampleReview) "ReviewDateTime:desc"
        ⟨1, 10, 100⟩ ∧
    ((List.replicate 10 sampleReview).length : Int) =
      ({ initialState with
        reviews := some (List.replicate 10 sampleReview), total := 100 } : State).limit ∧
    ((List.replicate 3 sampleReview).length : Int) <
      ({ initialState with
        reviews := some (List.replicate 3 sampleReview), total := 100 } : State).limit := by
  refine ⟨rfl, rfl, by decide, by decide⟩

/-- C8 amended: whenever the loaded review page is non-empty, the list
region renders the reviews, the sort dropdown and a pager displaying the
1-indexed inclusive range offset+1 through offset+limit with the loaded
total as totalItems; in particular for offset 0 and limit 10 the range
is 1 through 10.  Enabling of next/previous is decided by the external
pagination widget from that range and total, not from whether a full
page was returned. -/
theorem pager_props_range (s : State) (rs : List Review)
    (h : s.reviews = some rs) (hne : rs.length ≠ 0) :
    listView s =
      .reviewList rs s.sort ⟨s.offset + 1, s.offset + s.limit, s.total⟩ := by
  simp [listView, h, hne]

/-- C8 witness: the pager-props theorem applied to a loaded one-review
state: the displayed range is 1 through 10. -/
theorem pager_props_range_witness :
    listView { initialState with reviews := some [sampleReview], total := 1 } =
      .reviewList [sampleReview] "ReviewDateTime:desc" ⟨1, 10, 1⟩ :=
  pager_props_range _ [sampleReview] rfl (by decide)

/-- C9: every state reachable from the initial state by recognized
reducer actions has a non-negative offset and the fixed page size 10;
moreover no recognized reducer action ever modifies the page size. -/
theorem reachable_offset_nonneg_limit_fixed :
    (∀ s, Reachable s → 0 ≤ s.offset ∧ s.limit = 10) ∧
    (∀ (s : State) (a : ReducerActions) (s' : State),
      reducer s a = some s' → s'.limit = s.limit) := by
  refine ⟨?_, reducer_limit_eq⟩
  intro s hs
  induction hs with
  | init => exact ⟨le_refl 0, rfl⟩
  | step s s' a _ hstep ih =>
      refine ⟨?_, (reducer_limit_eq s a s' hstep).trans ih.2⟩
      exact reducer_offset_nonneg s a s' hstep ih.1 (by rw [ih.2]; norm_num)

/-- C9 witness: the invariant applied to the initial state itself. -/
theorem reachable_offset_nonneg_limit_fixed_witness :
    0 ≤ initialState.offset ∧ initialState.limit = 10 :=
  reachable_offset_nonneg_limit_fixed.1 initialState Reachable.init

/-- C10: `SET_REVIEWS` always stores `some` list — the `|| []` fallback
replaces a null/undefined payload by the empty list — so after any
`SET_REVIEWS` the `reviews` field is non-null and the list region cannot
be in (or return to) the loading state. -/
theorem setReviews_stores_nonnull (s : State) (k : String)
    (rv : Option (List Review)) (tot avg : Int) :
    reducer s ⟨"SET_REVIEWS", ⟨k, rv, tot, avg⟩⟩ =
      some { s with reviews := some (rv.getD []) } ∧
    (rv = none →
      reducer s ⟨"SET_REVIEWS", ⟨k, rv, tot, avg⟩⟩ =
        some { s with reviews := some ([] : List Review) }) ∧
    (∀ s', reducer s ⟨"SET_REVIEWS", ⟨k, rv, tot, avg⟩⟩ = some s' →
      s'.reviews ≠ none) := by
  refine ⟨rfl, ?_, ?_⟩
  · rintro rfl
    rfl
  · intro s' hs'
    have h1 : reducer s ⟨"SET_REVIEWS", ⟨k, rv, tot, avg⟩⟩ =
        some { s with reviews := some (rv.getD []) } := rfl
    rw [h1] at hs'
    injection hs' with hs'
    subst hs'
    simp

/-- C10 witness: the theorem applied with a null payload at the initial
state: the stored reviews field is the (non-null) empty list. -/
theorem setReviews_stores_nonnull_witness :
    reducer initialState ⟨"SET_REVIEWS", ⟨"", none, 0, 0⟩⟩ =
      some { initialState with reviews := some ([] : List Review) } :=
  (setReviews_stores_nonnull initialState "" none 0 0).2.1 rfl

end Reviews
